import Mathlib

/-!
Verification of the blink-control-hub detection core against its design
specification.  The definitions below are shallow embeddings of the
TypeScript source in `src/hooks/useBlinkDetection.ts` (EAR computation,
blink debouncing, frame handling, hook state transitions); the gesture
accumulator and the action dispatcher, whose page component is not among
the provided sources, are modelled from the specification where noted.
-/

namespace BlinkHub

/-- Mirror of the mutable debounce state held in `blinkCounterRef` and
`wasBlinkingRef` in `useBlinkDetection.ts`. -/
structure DebounceState where
  blinkCounter : Nat
  wasBlinking : Bool
deriving DecidableEq

/-- One evaluation of the blink-detection branch of `detectFrame`
(`useBlinkDetection.ts` lines 176-188) on the averaged EAR of a frame.
Returns the updated state and whether `onBlink` was invoked this frame.
Stated over any linear order so it can be used with exact rationals in the
synthetic-sequence tests and with reals in the frame pipeline. -/
def debounceStep {α : Type*} [LinearOrder α] (earThreshold : α)
    (consecutiveFrames : Nat) (s : DebounceState) (avgEAR : α) :
    DebounceState × Bool :=
  if avgEAR < earThreshold then
    ({ blinkCounter := s.blinkCounter + 1, wasBlinking := s.wasBlinking }, false)
  else
    if s.blinkCounter ≥ consecutiveFrames then
      if !s.wasBlinking then
        ({ blinkCounter := 0, wasBlinking := true }, true)
      else
        ({ blinkCounter := 0, wasBlinking := s.wasBlinking }, false)
    else
      ({ blinkCounter := 0, wasBlinking := false }, false)

/-- Fold `debounceStep` over a synthetic per-frame EAR sequence, collecting
the per-frame emission flags in order. -/
def runDebounce {α : Type*} [LinearOrder α] (earThreshold : α)
    (consecutiveFrames : Nat) (s : DebounceState) :
    List α → DebounceState × List Bool
  | [] => (s, [])
  | e :: es =>
    let r := debounceStep earThreshold consecutiveFrames s e
    let rest := runDebounce earThreshold consecutiveFrames r.1 es
    (rest.1, r.2 :: rest.2)

/-- A face landmark as produced by the inference engine
(`useBlinkDetection.ts` line 33): normalized x, y, z coordinates. -/
structure Landmark where
  x : ℝ
  y : ℝ
  z : ℝ

/-- A landmark frame: the positionally indexed sequence of landmarks of one
detected face. -/
def LandmarkFrame : Type := Nat → Landmark

/-- Uniform translation of a landmark by the offset vector `d`. -/
def Landmark.translate (p d : Landmark) : Landmark :=
  { x := p.x + d.x, y := p.y + d.y, z := p.z + d.z }

/-- `calculateEAR` (`useBlinkDetection.ts` lines 32-52): the ratio
`verticalDist / (horizontalDist + 0.0001)` of the Euclidean x/y distances
between the top/bottom and left/right landmarks at the given indices. -/
noncomputable def calculateEAR (landmarks : LandmarkFrame)
    (topIdx bottomIdx leftIdx rightIdx : Nat) : ℝ :=
  let top := landmarks topIdx
  let bottom := landmarks bottomIdx
  let left := landmarks leftIdx
  let right := landmarks rightIdx
  let verticalDist :=
    Real.sqrt ((top.x - bottom.x) ^ 2 + (top.y - bottom.y) ^ 2)
  let horizontalDist :=
    Real.sqrt ((left.x - right.x) ^ 2 + (left.y - right.y) ^ 2)
  verticalDist / (horizontalDist + 0.0001)

/-- Left-eye landmark indices (`useBlinkDetection.ts` lines 6-9). -/
def LEFT_EYE_TOP : Nat := 159

/-- Left-eye bottom-lid index. -/
def LEFT_EYE_BOTTOM : Nat := 145

/-- Left-eye outer-corner index. -/
def LEFT_EYE_LEFT : Nat := 33

/-- Left-eye inner-corner index. -/
def LEFT_EYE_RIGHT : Nat := 133

/-- Right-eye landmark indices (`useBlinkDetection.ts` lines 12-15). -/
def RIGHT_EYE_TOP : Nat := 386

/-- Right-eye bottom-lid index. -/
def RIGHT_EYE_BOTTOM : Nat := 374

/-- Right-eye inner-corner index. -/
def RIGHT_EYE_LEFT : Nat := 362

/-- Right-eye outer-corner index. -/
def RIGHT_EYE_RIGHT : Nat := 263

/-- The landmark-processing pass of one `detectFrame` iteration
(`useBlinkDetection.ts` lines 135-189), applied to the `faceLandmarks`
field of `detectForVideo`'s result (`none` models an absent field, as
tested by `results.faceLandmarks && results.faceLandmarks.length > 0`).
Drawing is side-effect only and not modelled.  Returns the updated
debounce state and whether `onBlink` fired. -/
noncomputable def detectFrame (earThreshold : ℝ) (consecutiveFrames : Nat)
    (faceLandmarks : Option (List LandmarkFrame)) (s : DebounceState) :
    DebounceState × Bool :=
  match faceLandmarks with
  | none => (s, false)
  | some faces =>
    if h : 0 < faces.length then
      let landmarks := faces.get ⟨0, h⟩
      let leftEAR := calculateEAR landmarks
        LEFT_EYE_TOP LEFT_EYE_BOTTOM LEFT_EYE_LEFT LEFT_EYE_RIGHT
      let rightEAR := calculateEAR landmarks
        RIGHT_EYE_TOP RIGHT_EYE_BOTTOM RIGHT_EYE_LEFT RIGHT_EYE_RIGHT
      let avgEAR := (leftEAR + rightEAR) / 2
      debounceStep earThreshold consecutiveFrames s avgEAR
    else (s, false)

/-- The hook's component state: the React state fields `isInitialized`,
`isRunning` and `error`, with the refs `faceLandmarkerRef`,
`animationFrameRef` and `drawingUtilsRef` modelled as presence flags and
the two debounce refs as their values. -/
structure HookState where
  isInitialized : Bool
  isRunning : Bool
  error : Option String
  faceLandmarker : Bool
  animationFrame : Bool
  drawingUtils : Bool
  blinkCounter : Nat
  wasBlinking : Bool
deriving DecidableEq

/-- `initializeDetector` (`useBlinkDetection.ts` lines 69-98): the whole
body is one `try`/`catch`, so the call never throws; `loadSucceeds` is the
joint outcome of the two awaited engine loads.  Success installs the
landmarker and sets `isInitialized`; failure sets the error message and
clears `isInitialized`, leaving the landmarker ref as it was. -/
def initializeDetector (s : HookState) (loadSucceeds : Bool) : HookState :=
  if loadSucceeds then
    { s with error := none, faceLandmarker := true, isInitialized := true }
  else
    { s with
      error := some "Failed to initialize face detector. Please try again.",
      isInitialized := false }

/-- `startDetection` (`useBlinkDetection.ts` lines 100-198): the guards of
lines 102-105 (missing landmarker, video or canvas) and line 108 (missing
2D context) return early; past them the call installs the drawing utils,
sets `isRunning` and invokes `detectFrame`, which arms the
animation-frame loop.  The returned flag records whether this call entered
the frame loop. -/
def startDetection (s : HookState) (hasVideo hasCanvas hasCtx : Bool) :
    HookState × Bool :=
  if !s.faceLandmarker || !hasVideo || !hasCanvas then (s, false)
  else if !hasCtx then (s, false)
  else
    ({ s with drawingUtils := true, isRunning := true, animationFrame := true },
      true)

/-- `stopDetection` (`useBlinkDetection.ts` lines 200-208): cancel the
armed animation frame, clear `isRunning` and reset the two debounce refs. -/
def stopDetection (s : HookState) : HookState :=
  { s with
    animationFrame := false, isRunning := false,
    blinkCounter := 0, wasBlinking := false }

/-- A hook state in which detection is initialized and running: the
concrete input on which the missing idempotence guard of `startDetection`
shows. -/
def runningState : HookState :=
  { isInitialized := true, isRunning := true, error := none,
    faceLandmarker := true, animationFrame := true, drawingUtils := true,
    blinkCounter := 0, wasBlinking := false }

/-- A hook state before any successful initialization. -/
def uninitializedState : HookState :=
  { isInitialized := false, isRunning := false, error := none,
    faceLandmarker := false, animationFrame := false, drawingUtils := false,
    blinkCounter := 0, wasBlinking := false }

/-- Modelled from the spec: the Gesture record of §3 (the gesture
accumulator's page component is not among the provided sources; only its
UI copy is). -/
structure Gesture where
  blinkCount : Nat
  startedAt : Nat
  lastBlinkAt : Nat
deriving DecidableEq

/-- Modelled from the spec: the detection session's combined state of §5 —
the hook state together with the accumulator's open gesture. -/
structure SessionState where
  hook : HookState
  openGesture : Option Gesture
deriving DecidableEq

/-- Modelled from the spec: `onBlinkEvent(ts)` of §4.3 — a blink event
attaches to the currently open gesture or opens a new one if none is. -/
def onBlinkEvent (ts : Nat) (g : Option Gesture) : Gesture :=
  match g with
  | none => { blinkCount := 1, startedAt := ts, lastBlinkAt := ts }
  | some g => { g with blinkCount := g.blinkCount + 1, lastBlinkAt := ts }

/-- Modelled from the spec: stopping the session (§5, Cancellation) runs
the hook's `stopDetection` and discards the open gesture without
finalizing it; the second component is the gesture dispatched by this call
(`none`: the `onGesture` callback does not fire). -/
def stopSession (s : SessionState) : SessionState × Option Gesture :=
  ({ hook := stopDetection s.hook, openGesture := none }, none)

/-- Modelled from the spec: the action identifiers of the static
ActionMapping (§3). -/
inductive ActionId where
  | toggleLight
  | toggleFan
  | raiseEmergencyAlert
  | openVoiceChannel
deriving DecidableEq

/-- Modelled from the spec: the static dispatch table
`{2: Light, 3: Fan, 5: Emergency, 6: Voice}` of §3/§4.4; the dispatcher's
page component is not among the provided sources (only UI copy naming the
5- and 6-blink actions is). -/
def actionMapping : Nat → Option ActionId
  | 2 => some ActionId.toggleLight
  | 3 => some ActionId.toggleFan
  | 5 => some ActionId.raiseEmergencyAlert
  | 6 => some ActionId.openVoiceChannel
  | _ => none

/-- Modelled from the spec: the Action Dispatcher of §4.4 — look up the
finalized gesture's blink count in the static table and invoke the mapped
effect; the result lists the effects invoked by the call (empty list: no
effect performed and no error surfaced). -/
def dispatchGesture (blinkCount : Nat) : List ActionId :=
  match actionMapping blinkCount with
  | some a => [a]
  | none => []

/-- A landmark frame whose four eye landmarks coincide: both the vertical
and the horizontal eye distances are zero (degenerate/occluded input). -/
def flatFrame : LandmarkFrame := fun _ => { x := 0, y := 0, z := 0 }

/-- A landmark frame with constant coordinates (1, 2, 5). -/
def zFrameA : LandmarkFrame := fun _ => { x := 1, y := 2, z := 5 }

/-- The frame `zFrameA` with every z coordinate changed (1, 2, 7). -/
def zFrameB : LandmarkFrame := fun _ => { x := 1, y := 2, z := 7 }

end BlinkHub

namespace BlinkHub

/-- Claim C1, as frozen, fails on the code: after the reachable prefix
`[0.15, 0.15, 0.3, 0.15, 0.15]` (threshold 0.2, minimum 2 closed frames)
the debouncer holds `blinkCounter = 2, wasBlinking = true`; on the next
frame with EAR `0.3 ≥ 0.2` the emission condition is false, so the claim's
"otherwise" clause demands `wasBlinking` be set to `false`, but the code
leaves it `true` (lines 179-186 clear it only in the short-closure
branch). -/
theorem debounceStep_wasBlinking_counterexample :
    (runDebounce (0.2 : ℚ) 2 { blinkCounter := 0, wasBlinking := false }
        [0.15, 0.15, 0.3, 0.15, 0.15]).1 =
      { blinkCounter := 2, wasBlinking := true }
  ∧ ¬ ((0.3 : ℚ) < 0.2)
  ∧ (debounceStep (0.2 : ℚ) 2 { blinkCounter := 2, wasBlinking := true } 0.3).2
      = false
  ∧ (debounceStep (0.2 : ℚ) 2
        { blinkCounter := 2, wasBlinking := true } 0.3).1.wasBlinking = true := by
  refine ⟨by norm_num [runDebounce, debounceStep], by norm_num,
    by norm_num [debounceStep], by norm_num [debounceStep]⟩

/-- Claim C1 (amended): per frame, a sub-threshold EAR increments the
counter and emits nothing; an at-or-above-threshold EAR emits exactly one
blink event iff the counter reached the minimum and `wasBlinking` is false,
resets the counter to 0, and sets `wasBlinking` to whether the counter had
reached the minimum (so it stays `true`, rather than being cleared, when a
long closure ends while `wasBlinking` is already set).  The two synthetic
sequences behave as the spec states: `[0.3, 0.3, 0.15, 0.15, 0.3]` emits
exactly one event, at the final frame, and `[0.3, 0.15, 0.3]` emits none. -/
theorem debounceStep_spec (thr : ℚ) (minF : Nat) (s : DebounceState) (ear : ℚ) :
    (ear < thr → debounceStep thr minF s ear =
        ({ blinkCounter := s.blinkCounter + 1, wasBlinking := s.wasBlinking },
          false))
  ∧ (¬ ear < thr →
        ((debounceStep thr minF s ear).2 = true ↔
            minF ≤ s.blinkCounter ∧ s.wasBlinking = false)
      ∧ (debounceStep thr minF s ear).1.blinkCounter = 0
      ∧ (debounceStep thr minF s ear).1.wasBlinking
          = decide (minF ≤ s.blinkCounter))
  ∧ runDebounce (0.2 : ℚ) 2 { blinkCounter := 0, wasBlinking := false }
        [0.3, 0.3, 0.15, 0.15, 0.3] =
      ({ blinkCounter := 0, wasBlinking := true },
        [false, false, false, false, true])
  ∧ runDebounce (0.2 : ℚ) 2 { blinkCounter := 0, wasBlinking := false }
        [0.3, 0.15, 0.3] =
      ({ blinkCounter := 0, wasBlinking := false }, [false, false, false]) := by
  refine ⟨fun h => ?_, fun h => ?_, by norm_num [runDebounce, debounceStep],
    by norm_num [runDebounce, debounceStep]⟩
  · simp [debounceStep, h]
  · rcases le_or_lt minF s.blinkCounter with hc | hc
    · cases hw : s.wasBlinking <;> simp [debounceStep, h, hc, hw, ge_iff_le]
    · simp [debounceStep, h, ge_iff_le, not_le.mpr hc, Nat.not_le.mpr hc]

/-- Witness for `debounceStep_spec` at threshold 0.2, minimum 2, the state
reached after two closed frames, and a reopening EAR of 0.3. -/
theorem debounceStep_spec_witness :
    ¬ ((0.3 : ℚ) < 0.2)
  ∧ ((debounceStep (0.2 : ℚ) 2
        { blinkCounter := 2, wasBlinking := false } 0.3).2 = true ↔
      2 ≤ 2 ∧ (false : Bool) = false) :=
  ⟨by norm_num,
    ((debounceStep_spec (0.2 : ℚ) 2
        { blinkCounter := 2, wasBlinking := false } 0.3).2.1 (by norm_num)).1⟩

/-- Claim C2: `calculateEAR` returns the vertical Euclidean distance over
the horizontal one plus ε = 1e-4; the denominator is strictly positive
even when the eye-corner landmarks coincide (so the division is never
degenerate), and a zero vertical distance gives exactly 0. -/
theorem calculateEAR_spec (landmarks : LandmarkFrame)
    (topIdx bottomIdx leftIdx rightIdx : Nat) :
    calculateEAR landmarks topIdx bottomIdx leftIdx rightIdx =
      Real.sqrt (((landmarks topIdx).x - (landmarks bottomIdx).x) ^ 2 +
          ((landmarks topIdx).y - (landmarks bottomIdx).y) ^ 2) /
        (Real.sqrt (((landmarks leftIdx).x - (landmarks rightIdx).x) ^ 2 +
            ((landmarks leftIdx).y - (landmarks rightIdx).y) ^ 2) + 1 / 10000)
  ∧ 0 < Real.sqrt (((landmarks leftIdx).x - (landmarks rightIdx).x) ^ 2 +
        ((landmarks leftIdx).y - (landmarks rightIdx).y) ^ 2) + 1 / 10000
  ∧ (Real.sqrt (((landmarks topIdx).x - (landmarks bottomIdx).x) ^ 2 +
        ((landmarks topIdx).y - (landmarks bottomIdx).y) ^ 2) = 0 →
      calculateEAR landmarks topIdx bottomIdx leftIdx rightIdx = 0) := by
  refine ⟨by norm_num [calculateEAR], by positivity, fun h => ?_⟩
  simp only [calculateEAR, h, zero_div]

/-- Witness for `calculateEAR_spec` on the degenerate frame whose four eye
landmarks coincide: the vertical distance is zero and the EAR is exactly 0
(with the horizontal distance also zero, so the ε guard is exercised). -/
theorem calculateEAR_spec_witness :
    Real.sqrt (((flatFrame 159).x - (flatFrame 145).x) ^ 2 +
        ((flatFrame 159).y - (flatFrame 145).y) ^ 2) = 0
  ∧ calculateEAR flatFrame 159 145 33 133 = 0 :=
  ⟨by norm_num [flatFrame], (calculateEAR_spec flatFrame 159 145 33 133).2.2
    (by norm_num [flatFrame])⟩

/-- Claim C3: on a frame in which no face is detected — `faceLandmarks`
absent (`none`) or empty — `detectFrame` leaves the debounce state exactly
as it was (no increment, no reset, `wasBlinking` untouched) and emits no
blink event. -/
theorem detectFrame_noFace (earThreshold : ℝ) (consecutiveFrames : Nat)
    (faceLandmarks : Option (List LandmarkFrame)) (s : DebounceState)
    (h : faceLandmarks = none ∨ faceLandmarks = some []) :
    detectFrame earThreshold consecutiveFrames faceLandmarks s = (s, false) := by
  rcases h with h | h <;> subst h <;> simp [detectFrame]

/-- Witness for `detectFrame_noFace`: a dropout frame in the middle of an
in-progress closure (counter 3, `wasBlinking` set) changes nothing. -/
theorem detectFrame_noFace_witness :
    ((none : Option (List LandmarkFrame)) = none
      ∨ (none : Option (List LandmarkFrame)) = some [])
  ∧ detectFrame 0.2 2 none { blinkCounter := 3, wasBlinking := true }
      = ({ blinkCounter := 3, wasBlinking := true }, false) :=
  ⟨Or.inl rfl,
    detectFrame_noFace 0.2 2 none { blinkCounter := 3, wasBlinking := true }
      (Or.inl rfl)⟩

/-- Claim C4: stopping the session cancels the armed animation frame and
clears `isRunning` (halting the loop), resets the debounce state, discards
the open gesture with no dispatch (`onGesture` does not fire), and a
subsequent `startDetection` leaves the debounce state clean, the next
blink opening a fresh gesture with count 1.  The gesture half is modelled
from the spec (§4.3, §5), its page component being absent from the
sources. -/
theorem stopSession_resets (s : SessionState)
    (hasVideo hasCanvas hasCtx : Bool) (ts : Nat) :
    (stopSession s).2 = none
  ∧ (stopSession s).1.openGesture = none
  ∧ (stopSession s).1.hook.isRunning = false
  ∧ (stopSession s).1.hook.animationFrame = false
  ∧ (stopSession s).1.hook.blinkCounter = 0
  ∧ (stopSession s).1.hook.wasBlinking = false
  ∧ (startDetection (stopSession s).1.hook hasVideo hasCanvas
        hasCtx).1.blinkCounter = 0
  ∧ (startDetection (stopSession s).1.hook hasVideo hasCanvas
        hasCtx).1.wasBlinking = false
  ∧ onBlinkEvent ts (stopSession s).1.openGesture
      = { blinkCount := 1, startedAt := ts, lastBlinkAt := ts } := by
  refine ⟨rfl, rfl, rfl, rfl, rfl, rfl, ?_, ?_, rfl⟩ <;>
    · unfold startDetection
      split_ifs <;> rfl

/-- Claim C5 is violated by the code: `startDetection` has no `isRunning`
guard (its only guards are the landmarker/video/canvas/context checks of
lines 102-108), so calling it while detection is already running passes
the guards and re-enters the frame loop — invoking `detectFrame` and
arming a second animation-frame chain — instead of being a no-op. -/
theorem startDetection_reenters_while_running :
    runningState.isRunning = true
  ∧ (startDetection runningState true true true).2 = true :=
  ⟨rfl, rfl⟩

/-- Claim C6 (dispatcher modelled from the spec, §4.4): each mapped count
invokes exactly its one effect, every count invokes at most one effect,
and an unmapped count such as 4 performs no effect and surfaces no
error. -/
theorem dispatchGesture_spec :
    dispatchGesture 2 = [ActionId.toggleLight]
  ∧ dispatchGesture 3 = [ActionId.toggleFan]
  ∧ dispatchGesture 5 = [ActionId.raiseEmergencyAlert]
  ∧ dispatchGesture 6 = [ActionId.openVoiceChannel]
  ∧ dispatchGesture 4 = []
  ∧ (∀ n : Nat, (dispatchGesture n).length ≤ 1)
  ∧ (∀ n : Nat, actionMapping n = none → dispatchGesture n = []) := by
  refine ⟨rfl, rfl, rfl, rfl, rfl, fun n => ?_, fun n h => ?_⟩
  · unfold dispatchGesture
    cases actionMapping n <;> simp
  · simp [dispatchGesture, h]

/-- Witness for `dispatchGesture_spec`: 4 is unmapped and dispatches no
effect. -/
theorem dispatchGesture_spec_witness :
    actionMapping 4 = none ∧ dispatchGesture 4 = [] :=
  ⟨rfl, dispatchGesture_spec.2.2.2.2.2.2 4 rfl⟩

/-- Claim C7: the EAR is invariant under uniform translation of every
landmark coordinate by a fixed offset vector. -/
theorem calculateEAR_translation_invariant (landmarks : LandmarkFrame)
    (d : Landmark) (topIdx bottomIdx leftIdx rightIdx : Nat) :
    calculateEAR (fun i => (landmarks i).translate d)
        topIdx bottomIdx leftIdx rightIdx
      = calculateEAR landmarks topIdx bottomIdx leftIdx rightIdx := by
  have key : ∀ a b c : ℝ, a + c - (b + c) = a - b := fun a b c => by ring
  simp only [calculateEAR, Landmark.translate, key]

/-- Claim C8: an initialization failure is reported non-fatally — the
error message is set and `isInitialized` is false — and the call returns
normally (the embedding is total because the body is a single
`try`/`catch`); a retried initialization that succeeds installs the
landmarker, sets `isInitialized` and clears the error. -/
theorem initializeDetector_failure_nonfatal (s : HookState) :
    (initializeDetector s false).isInitialized = false
  ∧ (initializeDetector s false).error
      = some "Failed to initialize face detector. Please try again."
  ∧ (initializeDetector (initializeDetector s false) true).isInitialized = true
  ∧ (initializeDetector (initializeDetector s false) true).faceLandmarker = true
  ∧ (initializeDetector (initializeDetector s false) true).error = none :=
  ⟨rfl, rfl, rfl, rfl, rfl⟩

/-- Claim C9: `calculateEAR` reads only the x and y coordinates of the
four indexed landmarks: frames that agree there, with arbitrary z
coordinates, give the same EAR. -/
theorem calculateEAR_ignores_z (f g : LandmarkFrame)
    (topIdx bottomIdx leftIdx rightIdx : Nat)
    (h : ((f topIdx).x = (g topIdx).x ∧ (f topIdx).y = (g topIdx).y)
       ∧ ((f bottomIdx).x = (g bottomIdx).x ∧ (f bottomIdx).y = (g bottomIdx).y)
       ∧ ((f leftIdx).x = (g leftIdx).x ∧ (f leftIdx).y = (g leftIdx).y)
       ∧ ((f rightIdx).x = (g rightIdx).x ∧ (f rightIdx).y = (g rightIdx).y)) :
    calculateEAR f topIdx bottomIdx leftIdx rightIdx
      = calculateEAR g topIdx bottomIdx leftIdx rightIdx := by
  obtain ⟨⟨h1, h2⟩, ⟨h3, h4⟩, ⟨h5, h6⟩, ⟨h7, h8⟩⟩ := h
  simp only [calculateEAR, h1, h2, h3, h4, h5, h6, h7, h8]

/-- Witness for `calculateEAR_ignores_z`: two frames equal in x and y at
the left-eye indices but with every z coordinate different (5 vs 7) have
the same EAR. -/
theorem calculateEAR_ignores_z_witness :
    (((zFrameA 159).x = (zFrameB 159).x ∧ (zFrameA 159).y = (zFrameB 159).y)
      ∧ ((zFrameA 145).x = (zFrameB 145).x ∧ (zFrameA 145).y = (zFrameB 145).y)
      ∧ ((zFrameA 33).x = (zFrameB 33).x ∧ (zFrameA 33).y = (zFrameB 33).y)
      ∧ ((zFrameA 133).x = (zFrameB 133).x ∧ (zFrameA 133).y = (zFrameB 133).y))
  ∧ calculateEAR zFrameA 159 145 33 133 = calculateEAR zFrameB 159 145 33 133 :=
  ⟨⟨⟨rfl, rfl⟩, ⟨rfl, rfl⟩, ⟨rfl, rfl⟩, ⟨rfl, rfl⟩⟩,
    calculateEAR_ignores_z zFrameA zFrameB 159 145 33 133
      ⟨⟨rfl, rfl⟩, ⟨rfl, rfl⟩, ⟨rfl, rfl⟩, ⟨rfl, rfl⟩⟩⟩

/-- Claim C10: with the landmarker absent, or the video, canvas or 2D
context missing, `startDetection` returns at once: the frame loop is not
entered, `isRunning` is not set and the debounce refs are untouched. -/
theorem startDetection_guard (s : HookState)
    (hasVideo hasCanvas hasCtx : Bool)
    (h : s.faceLandmarker = false ∨ hasVideo = false ∨ hasCanvas = false
        ∨ hasCtx = false) :
    startDetection s hasVideo hasCanvas hasCtx = (s, false) := by
  rcases h with h | h | h | h <;> simp [startDetection, h]

/-- Witness for `startDetection_guard`: before any initialization the
landmarker ref is empty, so starting with a valid video and canvas is
still a no-op. -/
theorem startDetection_guard_witness :
    (uninitializedState.faceLandmarker = false ∨ (true : Bool) = false
        ∨ (true : Bool) = false ∨ (true : Bool) = false)
  ∧ startDetection uninitializedState true true true
      = (uninitializedState, false) :=
  ⟨Or.inl rfl, startDetection_guard uninitializedState true true true
    (Or.inl rfl)⟩

end BlinkHub
